import Mathlib

/-!
Verification development for the ISPTranslator worker
(`src/index.ts` of DailyRoutines.ISPTranslator.WEB).

The worker is a tiered cache-aside translation service: it derives an MD5
cache key from `text + locale`, probes the edge cache, then the D1
persistent store, and on a full miss calls the AI provider, truncates the
output, answers the request and schedules detached write-backs to both
cache tiers.

Modelling conventions:
* Strings are sequences of Unicode scalar values (`String` over
  `List Char`); JavaScript's UTF-16 `length`, `substring` and `trim` are
  modelled on scalar values (`String.length`, `jsSubstring0`, `jsTrim`).
* The MD5 digest (`crypto.subtle.digest('MD5', …)`, a platform primitive)
  is implemented in full (RFC 1321) so that key derivation is executable.
* The `fetch` handler's translate path (lines 112-280 of `src/index.ts`)
  is embedded as the pure function `fetchTranslate` over oracles that give
  the outcome of each awaited I/O call.  A JavaScript exception that is
  not caught escapes the async handler and fails the request; this is
  modelled as `response = none`.
* `ctx.waitUntil(p)` detaches the promise `p` from the response: the
  scheduled writes are recorded in `Effects`, and the fate of the detached
  promises is passed in as outcomes that the handler provably never reads.
-/

/-! ## MD5 (RFC 1321), executable over byte lists -/

def mask32 : Nat := 4294967295

def rotl32 (x c : Nat) : Nat :=
  ((x <<< c) ||| (x >>> (32 - c))) &&& mask32

/-- The 64 MD5 sine-derived constants `K`. -/
def md5K : List Nat :=
  [0xd76aa478, 0xe8c7b756, 0x242070db, 0xc1bdceee,
   0xf57c0faf, 0x4787c62a, 0xa8304613, 0xfd469501,
   0x698098d8, 0x8b44f7af, 0xffff5bb1, 0x895cd7be,
   0x6b901122, 0xfd987193, 0xa679438e, 0x49b40821,
   0xf61e2562, 0xc040b340, 0x265e5a51, 0xe9b6c7aa,
   0xd62f105d, 0x02441453, 0xd8a1e681, 0xe7d3fbc8,
   0x21e1cde6, 0xc33707d6, 0xf4d50d87, 0x455a14ed,
   0xa9e3e905, 0xfcefa3f8, 0x676f02d9, 0x8d2a4c8a,
   0xfffa3942, 0x8771f681, 0x6d9d6122, 0xfde5380c,
   0xa4beea44, 0x4bdecfa9, 0xf6bb4b60, 0xbebfbc70,
   0x289b7ec6, 0xeaa127fa, 0xd4ef3085, 0x04881d05,
   0xd9d4d039, 0xe6db99e5, 0x1fa27cf8, 0xc4ac5665,
   0xf4292244, 0x432aff97, 0xab9423a7, 0xfc93a039,
   0x655b59c3, 0x8f0ccc92, 0xffeff47d, 0x85845dd1,
   0x6fa87e4f, 0xfe2ce6e0, 0xa3014314, 0x4e0811a1,
   0xf7537e82, 0xbd3af235, 0x2ad7d2bb, 0xeb86d391]

/-- Per-round left-rotation amounts `s`. -/
def md5S : List Nat :=
  [7, 12, 17, 22, 7, 12, 17, 22, 7, 12, 17, 22, 7, 12, 17, 22,
   5, 9, 14, 20, 5, 9, 14, 20, 5, 9, 14, 20, 5, 9, 14, 20,
   4, 11, 16, 23, 4, 11, 16, 23, 4, 11, 16, 23, 4, 11, 16, 23,
   6, 10, 15, 21, 6, 10, 15, 21, 6, 10, 15, 21, 6, 10, 15, 21]

/-- Message-word index used in round `i`. -/
def md5G (i : Nat) : Nat :=
  if i < 16 then i
  else if i < 32 then (5 * i + 1) % 16
  else if i < 48 then (3 * i + 5) % 16
  else (7 * i) % 16

/-- The nonlinear mixing function of round `i`. -/
def md5F (i b c d : Nat) : Nat :=
  if i < 16 then (b &&& c) ||| ((b ^^^ mask32) &&& d)
  else if i < 32 then (d &&& b) ||| ((d ^^^ mask32) &&& c)
  else if i < 48 then b ^^^ c ^^^ d
  else c ^^^ (b ||| (d ^^^ mask32))

/-- One of the 64 MD5 rounds, acting on the state `(a, b, c, d)`. -/
def md5Round (M : Nat → Nat) (st : Nat × Nat × Nat × Nat) (i : Nat) :
    Nat × Nat × Nat × Nat :=
  let (a, b, c, d) := st
  let f := (md5F i b c d + a + md5K.getD i 0 + M (md5G i)) &&& mask32
  (d, (b + rotl32 f (md5S.getD i 0)) &&& mask32, b, c)

/-- Process one 16-word block. -/
def md5Block (st : Nat × Nat × Nat × Nat) (block : List Nat) :
    Nat × Nat × Nat × Nat :=
  let (a0, b0, c0, d0) := st
  let (a, b, c, d) := (List.range 64).foldl (md5Round fun j => block.getD j 0) st
  ((a0 + a) &&& mask32, (b0 + b) &&& mask32,
   (c0 + c) &&& mask32, (d0 + d) &&& mask32)

/-- Little-endian bytes to 32-bit words. -/
def bytesToWords : List Nat → List Nat
  | b0 :: b1 :: b2 :: b3 :: rest =>
      (b0 ||| (b1 <<< 8) ||| (b2 <<< 16) ||| (b3 <<< 24)) :: bytesToWords rest
  | _ => []

/-- RFC 1321 padding: `0x80`, zeros to 56 mod 64, then the bit length as a
64-bit little-endian quantity. -/
def md5Pad (msg : List Nat) : List Nat :=
  let len := msg.length
  let zeros := (119 - len % 64) % 64
  let bitLen := (len * 8) % (2 ^ 64)
  msg ++ 0x80 :: List.replicate zeros 0 ++
    (List.range 8).map (fun i => (bitLen >>> (8 * i)) &&& 0xff)

/-- Run the compression function over every 16-word chunk. -/
def md5Process (ws : List Nat) : Nat × Nat × Nat × Nat :=
  (List.range (ws.length / 16)).foldl
    (fun st k => md5Block st ((ws.drop (16 * k)).take 16))
    (0x67452301, 0xefcdab89, 0x98badcfe, 0x10325476)

def hexDigit (n : Nat) : Char :=
  "0123456789abcdef".data.getD n '0'

/-- A byte as two lowercase hex digits, as `b.toString(16).padStart(2, '0')`
renders bytes in the source. -/
def byteHex (b : Nat) : List Char :=
  [hexDigit (b / 16), hexDigit (b % 16)]

/-- The four bytes of a 32-bit word, little-endian. -/
def wordLEBytes (w : Nat) : List Nat :=
  [w &&& 0xff, (w >>> 8) &&& 0xff, (w >>> 16) &&& 0xff, (w >>> 24) &&& 0xff]

/-- The MD5 digest of a byte sequence, rendered as 32 lowercase hex
characters. -/
def md5Hex (msg : List Nat) : String :=
  let (a, b, c, d) := md5Process (bytesToWords (md5Pad msg))
  ⟨((wordLEBytes a ++ wordLEBytes b ++ wordLEBytes c ++ wordLEBytes d).map
      byteHex).flatten⟩

/-- UTF-8 encoding of one Unicode scalar value (the `TextEncoder` of the
source). -/
def utf8Bytes (c : Nat) : List Nat :=
  if c < 0x80 then [c]
  else if c < 0x800 then
    [0xc0 ||| (c >>> 6), 0x80 ||| (c &&& 0x3f)]
  else if c < 0x10000 then
    [0xe0 ||| (c >>> 12), 0x80 ||| ((c >>> 6) &&& 0x3f), 0x80 ||| (c &&& 0x3f)]
  else
    [0xf0 ||| (c >>> 18), 0x80 ||| ((c >>> 12) &&& 0x3f),
     0x80 ||| ((c >>> 6) &&& 0x3f), 0x80 ||| (c &&& 0x3f)]

/-- The source's `new TextEncoder().encode(...)`. -/
def utf8Encode (s : String) : List Nat :=
  (s.data.map fun c => utf8Bytes c.toNat).flatten

/-- Key derivation of `src/index.ts` lines 134-141: the MD5 digest of the
UTF-8 bytes of `text + locale`, rendered as lowercase hex. -/
def target_cache_key (text locale : String) : String :=
  md5Hex (utf8Encode (text ++ locale))

/-! ## JavaScript string primitives used by the handler -/

/-- JavaScript's `s.substring(0, n)`, modelled on Unicode scalar values. -/
def jsSubstring0 (s : String) (n : Nat) : String :=
  ⟨s.data.take n⟩

/-- JavaScript's `s.trim()`: strip leading and trailing whitespace. -/
def jsTrim (s : String) : String :=
  ⟨(((s.data.dropWhile Char.isWhitespace).reverse.dropWhile
      Char.isWhitespace).reverse)⟩

/-! ## Data model of the translate path -/

/-- The three lookup tiers the handler may consult, cheapest first. -/
inductive Tier
  | edge
  | store
  | provider
deriving DecidableEq, Repr

/-- The response value `{ original, translated, source }`. -/
structure TranslationResult where
  original : String
  translated : String
  source : String
deriving DecidableEq, Repr

/-- An HTTP response produced by the handler: status, JSON translation
body (when any), plain-text error body (when any), and the
`X-Cache-Status` header value (when set). -/
structure HttpResponse where
  status : Nat
  result : Option TranslationResult
  errorBody : Option String
  cacheStatus : Option String
deriving DecidableEq, Repr

/-- Observable side effects of one handler run: the tiers consulted, in
order, and the writes scheduled through `ctx.waitUntil` — the D1
`INSERT` of `(cache_key, translated_text)` and the edge `cache.put` of a
`TranslationResult` under the derived key. -/
structure Effects where
  trace : List Tier
  d1Write : Option (String × String)
  edgeWrite : Option (String × TranslationResult)
deriving DecidableEq, Repr

/-- No tier consulted, nothing scheduled. -/
def noEffects : Effects :=
  { trace := [], d1Write := none, edgeWrite := none }

/-- Outcome of the provider call: the `fetch` promise rejects, the
response has a non-success status, or it parses to a body whose
`choices[i].message.content` strings are listed (missing or empty
`choices` is the empty list). -/
inductive AIOutcome
  | transportError
  | httpFailure (status : Nat) (errorText : String)
  | success (choices : List String)
deriving DecidableEq, Repr

/-- Result of one handler run.  `response = none` models a JavaScript
exception that no `try/catch` intercepts: the async handler's promise
rejects and the request fails with no worker-built response. -/
structure HandlerResult where
  response : Option HttpResponse
  effects : Effects
deriving DecidableEq, Repr

/-! ## The translate path of `fetch` (`src/index.ts` lines 112-280)

Oracles supply the outcome of each awaited I/O call:
`edgeProbe` for `cache.match` (`.error` = the probe throws, `.ok v` =
the cached `TranslationResult` body or absence), `d1Get` for the D1
`SELECT ... .first()`, `ai` for the provider call.  The last two
arguments give the fate of the two promises detached via
`ctx.waitUntil`; the code never observes them (a D1 insert error is
caught and logged, an edge put rejection is absorbed by `waitUntil`). -/

def fetchTranslate (text locale : String)
    (edgeProbe : Except Unit (Option TranslationResult))
    (d1Get : Except Unit (Option String))
    (ai : AIOutcome)
    (_d1PutOutcome _edgePutOutcome : Except Unit Unit) : HandlerResult :=
  if text = "" ∨ locale = "" then
    { response := some { status := 400, result := none,
                         errorBody := some "Missing text or locale",
                         cacheStatus := none },
      effects := noEffects }
  else if text.length > 64 then
    { response := some { status := 400, result := none,
                         errorBody := some "Text too long",
                         cacheStatus := none },
      effects := noEffects }
  else
    let key := target_cache_key text locale
    match edgeProbe with
    | .error _ =>
        { response := none,
          effects := { noEffects with trace := [Tier.edge] } }
    | .ok (some data) =>
        { response := some { status := 200,
                             result := some { data with source := "edge" },
                             errorBody := none,
                             cacheStatus := some "HIT-EDGE" },
          effects := { noEffects with trace := [Tier.edge] } }
    | .ok none =>
        match d1Get with
        | .error _ =>
            { response := none,
              effects := { noEffects with trace := [Tier.edge, Tier.store] } }
        | .ok (some storedText) =>
            let result : TranslationResult :=
              { original := text, translated := storedText, source := "cache" }
            { response := some { status := 200, result := some result,
                                 errorBody := none,
                                 cacheStatus := some "HIT-D1" },
              effects := { trace := [Tier.edge, Tier.store],
                           d1Write := none,
                           edgeWrite := some (key, result) } }
        | .ok none =>
            match ai with
            | .transportError =>
                { response := some { status := 500, result := none,
                                     errorBody := some "AI Service Error",
                                     cacheStatus := none },
                  effects := { noEffects with
                               trace := [Tier.edge, Tier.store, Tier.provider] } }
            | .httpFailure _ _ =>
                { response := some { status := 500, result := none,
                                     errorBody := some "AI Service Error",
                                     cacheStatus := none },
                  effects := { noEffects with
                               trace := [Tier.edge, Tier.store, Tier.provider] } }
            | .success choices =>
                let translatedText :=
                  match choices.head? with
                  | some c => jsTrim c
                  | none => "Translation Error"
                let truncated_result := jsSubstring0 translatedText 64
                let final_result : TranslationResult :=
                  { original := text, translated := truncated_result,
                    source := "ai" }
                { response := some { status := 200,
                                     result := some final_result,
                                     errorBody := none,
                                     cacheStatus := some "MISS" },
                  effects := { trace := [Tier.edge, Tier.store, Tier.provider],
                               d1Write := some (key, truncated_result),
                               edgeWrite := some (key, final_result) } }

/-! ## The dev-only cache update route (`src/index.ts` lines 97-106)

Reachable when `isDev` holds; on a well-formed body it issues
`UPDATE translations SET translated_text = ? WHERE cache_key = ?` with
the given text as-is — no truncation and no length check.  `.ok (k, t)`
records the write of value `t` under key `k`. -/

def handleCacheUpdate (key text : String) : Except (Nat × String) (String × String) :=
  if key = "" ∨ text = "" then .error (400, "Missing key or text")
  else .ok (key, text)

/-! ## Sanity checks of the MD5 embedding against RFC 1321 test vectors -/

theorem md5Hex_rfc_vector_empty :
    md5Hex (utf8Encode "") = "d41d8cd98f00b204e9800998ecf8427e" := by decide

theorem md5Hex_rfc_vector_abc :
    md5Hex (utf8Encode "abc") = "900150983cd24fb0d6963f7d28e17f72" := by decide

/-! ## Helper lemmas -/

theorem jsSubstring0_length (s : String) (n : Nat) :
    (jsSubstring0 s n).length = min n s.length := by
  show (s.data.take n).length = min n s.data.length
  simp [List.length_take]

theorem jsSubstring0_length_le (s : String) (n : Nat) :
    (jsSubstring0 s n).length ≤ n := by
  rw [jsSubstring0_length]
  exact Nat.min_le_left n s.length

theorem jsSubstring0_translationError :
    jsSubstring0 "Translation Error" 64 = "Translation Error" := by decide

/-! ## Claims -/

/-- C1, counterexample.  The key is the MD5 of the plain concatenation
`text + locale`, so the distinct pairs `("ab", "c")` and `("a", "bc")`
concatenate to the same string and derive the identical key: "distinct
(text, locale) pairs never derive the same key" is false. -/
theorem C1_counterexample :
    ((("ab" : String), ("c" : String)) ≠ (("a" : String), ("bc" : String))) ∧
    target_cache_key "ab" "c" = target_cache_key "a" "bc" := by
  exact ⟨by decide, rfl⟩

/-- C1, amended.  Key derivation is deterministic — equal inputs give the
identical key — but distinct pairs can collide: any two pairs whose
concatenations `text ++ locale` coincide derive the identical key. -/
theorem C1_derive_deterministic_but_concat_collides
    (t l t' l' : String) :
    (t = t' ∧ l = l' → target_cache_key t l = target_cache_key t' l') ∧
    (t ++ l = t' ++ l' → target_cache_key t l = target_cache_key t' l') := by
  constructor
  · rintro ⟨rfl, rfl⟩
    rfl
  · intro h
    unfold target_cache_key
    rw [h]

/-- C1, witness at concrete inputs. -/
theorem C1_witness :
    target_cache_key "NTT" "en" = target_cache_key "NTT" "en" ∧
    target_cache_key "ab" "c" = target_cache_key "a" "bc" :=
  ⟨(C1_derive_deterministic_but_concat_collides "NTT" "en" "NTT" "en").1 ⟨rfl, rfl⟩,
   (C1_derive_deterministic_but_concat_collides "ab" "c" "a" "bc").2 rfl⟩

/-- C2, counterexample.  On a full miss where the provider returns an HTTP
success whose body has no non-empty `choices` array, the handler does not
fail with a 5xx: it answers 200 with the TranslationResult
`{ original, translated := "Translation Error", source := "ai" }`. -/
theorem C2_counterexample :
    (fetchTranslate "NTT" "en" (.ok none) (.ok none) (.success [])
        (.ok ()) (.ok ())).response =
      some { status := 200,
             result := some ⟨"NTT", "Translation Error", "ai"⟩,
             errorBody := none, cacheStatus := some "MISS" } := by
  decide

/-- C2, amended.  On a full miss, a provider transport error or a
non-success provider status is a hard failure answered as a 500
"AI Service Error" with no TranslationResult; but a success response
missing a non-empty `choices` array is not a failure: the handler answers
200 with translated = "Translation Error" and source "ai". -/
theorem C2_provider_failure_vs_missing_choices
    (text locale : String) (s : Nat) (e : String) (o1 o2 : Except Unit Unit)
    (htext : text ≠ "") (hloc : locale ≠ "") (hlen : text.length ≤ 64) :
    (fetchTranslate text locale (.ok none) (.ok none) .transportError o1 o2).response =
      some { status := 500, result := none,
             errorBody := some "AI Service Error", cacheStatus := none } ∧
    (fetchTranslate text locale (.ok none) (.ok none) (.httpFailure s e) o1 o2).response =
      some { status := 500, result := none,
             errorBody := some "AI Service Error", cacheStatus := none } ∧
    (fetchTranslate text locale (.ok none) (.ok none) (.success []) o1 o2).response =
      some { status := 200,
             result := some ⟨text, "Translation Error", "ai"⟩,
             errorBody := none, cacheStatus := some "MISS" } := by
  have h1 : ¬ (text = "" ∨ locale = "") := by
    intro h
    cases h <;> contradiction
  have h2 : ¬ (text.length > 64) := by omega
  refine ⟨?_, ?_, ?_⟩ <;>
    simp [fetchTranslate, h1, h2, jsSubstring0_translationError]

/-- C2, witness at concrete inputs. -/
theorem C2_witness :
    (fetchTranslate "NTT" "en" (.ok none) (.ok none) .transportError
        (.ok ()) (.ok ())).response =
      some { status := 500, result := none,
             errorBody := some "AI Service Error", cacheStatus := none } ∧
    (fetchTranslate "NTT" "en" (.ok none) (.ok none) (.httpFailure 503 "down")
        (.ok ()) (.ok ())).response =
      some { status := 500, result := none,
             errorBody := some "AI Service Error", cacheStatus := none } ∧
    (fetchTranslate "NTT" "en" (.ok none) (.ok none) (.success [])
        (.ok ()) (.ok ())).response =
      some { status := 200,
             result := some ⟨"NTT", "Translation Error", "ai"⟩,
             errorBody := none, cacheStatus := some "MISS" } := by
  have h := C2_provider_failure_vs_missing_choices "NTT" "en" 503 "down"
    (.ok ()) (.ok ()) (by decide) (by decide) (by decide)
  exact h

/-- C3, counterexample.  The dev-only cache update route accepts a 65
character value and issues the `UPDATE` with it unchanged — no truncation
is applied before this write, so not every `translated_text` written by
an operation of the program is at most 64 characters long. -/
theorem C3_counterexample :
    handleCacheUpdate "k" (String.mk (List.replicate 65 'a')) =
      .ok ("k", String.mk (List.replicate 65 'a')) ∧
    (String.mk (List.replicate 65 'a')).length = 65 := by
  exact ⟨rfl, by decide⟩

/-- C3, amended.  On the translate path the bound does hold: whenever
every value readable from the persistent store is at most 64 characters,
every write the handler schedules — the D1 insert and the edge cache put
— carries a value of at most 64 characters (the miss path truncates
before writing, and the backfill re-writes a stored value).  The dev-only
`/cache/update` route, however, writes its input without truncation. -/
theorem C3_translate_writes_bounded
    (text locale : String)
    (edgeProbe : Except Unit (Option TranslationResult))
    (d1Get : Except Unit (Option String))
    (ai : AIOutcome) (o1 o2 : Except Unit Unit)
    (hstore : ∀ v, d1Get = .ok (some v) → v.length ≤ 64) :
    (∀ k t, (fetchTranslate text locale edgeProbe d1Get ai o1 o2).effects.d1Write =
        some (k, t) → t.length ≤ 64) ∧
    (∀ k r, (fetchTranslate text locale edgeProbe d1Get ai o1 o2).effects.edgeWrite =
        some (k, r) → r.translated.length ≤ 64) := by
  by_cases h1 : text = "" ∨ locale = ""
  · simp [fetchTranslate, h1, noEffects]
  · by_cases h2 : text.length > 64
    · simp [fetchTranslate, h1, h2, noEffects]
    · rcases edgeProbe with u | (_ | r)
      · simp [fetchTranslate, h1, h2, noEffects]
      · rcases d1Get with u | (_ | v)
        · simp [fetchTranslate, h1, h2, noEffects]
        · rcases ai with _ | ⟨s, e⟩ | choices
          · simp [fetchTranslate, h1, h2, noEffects]
          · simp [fetchTranslate, h1, h2, noEffects]
          · constructor
            · intro k t ht
              simp [fetchTranslate, h1, h2] at ht
              rw [← ht.2]
              exact jsSubstring0_length_le _ 64
            · intro k r hr
              simp [fetchTranslate, h1, h2] at hr
              rw [← hr.2]
              exact jsSubstring0_length_le _ 64
        · constructor
          · intro k t ht
            simp [fetchTranslate, h1, h2] at ht
          · intro k r hr
            simp [fetchTranslate, h1, h2] at hr
            rw [← hr.2]
            exact hstore v rfl
      · simp [fetchTranslate, h1, h2, noEffects]

/-- C3, witness: a full-miss run whose provider output is 70 characters
long schedules both writes with the truncated, in-bound value. -/
theorem C3_witness :
    (jsSubstring0 (jsTrim (String.mk (List.replicate 70 'a'))) 64).length ≤ 64 ∧
    (String.mk (List.replicate 70 'a')).length = 70 := by
  have h := C3_translate_writes_bounded "NTT" "en" (.ok none) (.ok none)
    (.success [String.mk (List.replicate 70 'a')]) (.ok ()) (.ok ())
    (by intro v hv; simp at hv)
  exact ⟨h.1 (target_cache_key "NTT" "en")
      (jsSubstring0 (jsTrim (String.mk (List.replicate 70 'a'))) 64) rfl,
    by decide⟩

/-- C4, confirmed.  Empty text, empty locale, or text longer than 64
characters terminates the request with a 400 validation error while no
tier has been consulted and no write scheduled (`noEffects`); text of
exactly 64 characters passes validation and the edge probe is the first
tier consulted. -/
theorem C4_validation_gates_all_tiers
    (text locale : String)
    (edgeProbe : Except Unit (Option TranslationResult))
    (d1Get : Except Unit (Option String))
    (ai : AIOutcome) (o1 o2 : Except Unit Unit) :
    ((text = "" ∨ locale = "") →
      fetchTranslate text locale edgeProbe d1Get ai o1 o2 =
        { response := some { status := 400, result := none,
                             errorBody := some "Missing text or locale",
                             cacheStatus := none },
          effects := noEffects }) ∧
    (text ≠ "" → locale ≠ "" → text.length > 64 →
      fetchTranslate text locale edgeProbe d1Get ai o1 o2 =
        { response := some { status := 400, result := none,
                             errorBody := some "Text too long",
                             cacheStatus := none },
          effects := noEffects }) ∧
    (text ≠ "" → locale ≠ "" → text.length = 64 →
      (fetchTranslate text locale edgeProbe d1Get ai o1 o2).effects.trace.head? =
        some Tier.edge) := by
  refine ⟨?_, ?_, ?_⟩
  · intro h
    simp [fetchTranslate, h]
  · intro ht hl hlen
    have h1 : ¬ (text = "" ∨ locale = "") := by
      intro h
      cases h <;> contradiction
    simp [fetchTranslate, h1, hlen]
  · intro ht hl hlen
    have h1 : ¬ (text = "" ∨ locale = "") := by
      intro h
      cases h <;> contradiction
    have h2 : ¬ (text.length > 64) := by omega
    rcases edgeProbe with u | (_ | r)
    · simp [fetchTranslate, h1, h2, noEffects]
    · rcases d1Get with u | (_ | v)
      · simp [fetchTranslate, h1, h2, noEffects]
      · rcases ai with _ | ⟨s, e⟩ | choices <;>
          simp [fetchTranslate, h1, h2, noEffects]
      · simp [fetchTranslate, h1, h2]
    · simp [fetchTranslate, h1, h2, noEffects]

/-- C4, witness: empty text is rejected, a 65-character text is rejected,
and a 64-character text reaches the edge probe. -/
theorem C4_witness :
    fetchTranslate "" "en" (.ok none) (.ok none) .transportError (.ok ()) (.ok ()) =
      { response := some { status := 400, result := none,
                           errorBody := some "Missing text or locale",
                           cacheStatus := none },
        effects := noEffects } ∧
    fetchTranslate (String.mk (List.replicate 65 'x')) "en" (.ok none) (.ok none)
        .transportError (.ok ()) (.ok ()) =
      { response := some { status := 400, result := none,
                           errorBody := some "Text too long",
                           cacheStatus := none },
        effects := noEffects } ∧
    (fetchTranslate (String.mk (List.replicate 64 'x')) "en" (.ok none) (.ok none)
        .transportError (.ok ()) (.ok ())).effects.trace.head? = some Tier.edge := by
  refine ⟨(C4_validation_gates_all_tiers "" "en" (.ok none) (.ok none)
      .transportError (.ok ()) (.ok ())).1 (Or.inl rfl), ?_, ?_⟩
  · exact (C4_validation_gates_all_tiers (String.mk (List.replicate 65 'x')) "en"
      (.ok none) (.ok none) .transportError (.ok ()) (.ok ())).2.1
      (by decide) (by decide) (by decide)
  · exact (C4_validation_gates_all_tiers (String.mk (List.replicate 64 'x')) "en"
      (.ok none) (.ok none) .transportError (.ok ()) (.ok ())).2.2
      (by decide) (by decide) (by decide)

/-- C5, confirmed.  On a valid request the consultation trace is always a
prefix of edge, then store, then provider; an edge hit stops the trace at
the edge tier, a persistent-store hit stops it before the provider, and
the provider is only ever consulted when both the edge probe and the
store lookup reported absence. -/
theorem C5_tier_order
    (text locale : String)
    (edgeProbe : Except Unit (Option TranslationResult))
    (d1Get : Except Unit (Option String))
    (ai : AIOutcome) (o1 o2 : Except Unit Unit)
    (htext : text ≠ "") (hloc : locale ≠ "") (hlen : text.length ≤ 64) :
    (∃ n, (fetchTranslate text locale edgeProbe d1Get ai o1 o2).effects.trace =
        List.take n [Tier.edge, Tier.store, Tier.provider]) ∧
    (∀ r, edgeProbe = .ok (some r) →
      (fetchTranslate text locale edgeProbe d1Get ai o1 o2).effects.trace =
        [Tier.edge]) ∧
    (∀ v, edgeProbe = .ok none → d1Get = .ok (some v) →
      (fetchTranslate text locale edgeProbe d1Get ai o1 o2).effects.trace =
        [Tier.edge, Tier.store]) ∧
    (Tier.provider ∈ (fetchTranslate text locale edgeProbe d1Get ai o1 o2).effects.trace →
      edgeProbe = .ok none ∧ d1Get = .ok none) := by
  have h1 : ¬ (text = "" ∨ locale = "") := by
    intro h
    cases h <;> contradiction
  have h2 : ¬ (text.length > 64) := by omega
  rcases edgeProbe with u | (_ | r)
  · exact ⟨⟨1, by simp [fetchTranslate, h1, h2, noEffects]⟩,
      by simp, by simp, by simp [fetchTranslate, h1, h2, noEffects]⟩
  · rcases d1Get with u | (_ | v)
    · exact ⟨⟨2, by simp [fetchTranslate, h1, h2, noEffects]⟩,
        by simp, by simp, by simp [fetchTranslate, h1, h2, noEffects]⟩
    · rcases ai with _ | ⟨s, e⟩ | choices
      · exact ⟨⟨3, by simp [fetchTranslate, h1, h2, noEffects]⟩,
          by simp, by simp, by simp⟩
      · exact ⟨⟨3, by simp [fetchTranslate, h1, h2, noEffects]⟩,
          by simp, by simp, by simp⟩
      · exact ⟨⟨3, by simp [fetchTranslate, h1, h2, noEffects]⟩,
          by simp, by simp, by simp⟩
    · exact ⟨⟨2, by simp [fetchTranslate, h1, h2]⟩,
        by simp, by simp [fetchTranslate, h1, h2], by simp [fetchTranslate, h1, h2]⟩
  · exact ⟨⟨1, by simp [fetchTranslate, h1, h2, noEffects]⟩,
      by simp [fetchTranslate, h1, h2, noEffects],
      by simp, by simp [fetchTranslate, h1, h2, noEffects]⟩

/-- C5, witness: an edge hit consults only the edge tier, and a
persistent-store hit consults exactly edge then store. -/
theorem C5_witness :
    (fetchTranslate "NTT" "en" (.ok (some ⟨"NTT", "NTT", "ai"⟩)) (.ok none)
        .transportError (.ok ()) (.ok ())).effects.trace = [Tier.edge] ∧
    (fetchTranslate "NTT" "en" (.ok none) (.ok (some "NTT"))
        .transportError (.ok ()) (.ok ())).effects.trace = [Tier.edge, Tier.store] := by
  refine ⟨?_, ?_⟩
  · exact (C5_tier_order "NTT" "en" (.ok (some ⟨"NTT", "NTT", "ai"⟩)) (.ok none)
      .transportError (.ok ()) (.ok ()) (by decide) (by decide) (by decide)).2.1
      ⟨"NTT", "NTT", "ai"⟩ rfl
  · exact (C5_tier_order "NTT" "en" (.ok none) (.ok (some "NTT"))
      .transportError (.ok ()) (.ok ()) (by decide) (by decide) (by decide)).2.2.1
      "NTT" rfl rfl

/-- C6, confirmed.  On a full miss, a provider transport error or a
non-success provider status yields the 500 "AI Service Error" response
and schedules no D1 insert and no edge cache put: both cache tiers are
left unchanged. -/
theorem C6_provider_failure_leaves_caches_unchanged
    (text locale : String) (s : Nat) (e : String) (o1 o2 : Except Unit Unit)
    (htext : text ≠ "") (hloc : locale ≠ "") (hlen : text.length ≤ 64) :
    fetchTranslate text locale (.ok none) (.ok none) .transportError o1 o2 =
      { response := some { status := 500, result := none,
                           errorBody := some "AI Service Error",
                           cacheStatus := none },
        effects := { trace := [Tier.edge, Tier.store, Tier.provider],
                     d1Write := none, edgeWrite := none } } ∧
    fetchTranslate text locale (.ok none) (.ok none) (.httpFailure s e) o1 o2 =
      { response := some { status := 500, result := none,
                           errorBody := some "AI Service Error",
                           cacheStatus := none },
        effects := { trace := [Tier.edge, Tier.store, Tier.provider],
                     d1Write := none, edgeWrite := none } } := by
  have h1 : ¬ (text = "" ∨ locale = "") := by
    intro h
    cases h <;> contradiction
  have h2 : ¬ (text.length > 64) := by omega
  constructor <;> simp [fetchTranslate, h1, h2, noEffects]

/-- C6, witness at concrete inputs. -/
theorem C6_witness :
    fetchTranslate "NTT" "en" (.ok none) (.ok none) .transportError (.ok ()) (.ok ()) =
      { response := some { status := 500, result := none,
                           errorBody := some "AI Service Error",
                           cacheStatus := none },
        effects := { trace := [Tier.edge, Tier.store, Tier.provider],
                     d1Write := none, edgeWrite := none } } ∧
    fetchTranslate "NTT" "en" (.ok none) (.ok none) (.httpFailure 502 "bad gateway")
        (.ok ()) (.ok ()) =
      { response := some { status := 500, result := none,
                           errorBody := some "AI Service Error",
                           cacheStatus := none },
        effects := { trace := [Tier.edge, Tier.store, Tier.provider],
                     d1Write := none, edgeWrite := none } } :=
  C6_provider_failure_leaves_caches_unchanged "NTT" "en" 502 "bad gateway"
    (.ok ()) (.ok ()) (by decide) (by decide) (by decide)

/-- C7, confirmed.  On an edge miss that hits the persistent store, the
response is 200 with `{ original := text, translated := the stored
value, source := "cache" }`, the provider is not consulted, no D1 write
is scheduled, and an edge cache backfill carrying exactly the retrieved
text under the derived key is scheduled as a detached write. -/
theorem C7_store_hit_returns_cache_and_backfills
    (text locale v : String) (ai : AIOutcome) (o1 o2 : Except Unit Unit)
    (htext : text ≠ "") (hloc : locale ≠ "") (hlen : text.length ≤ 64) :
    fetchTranslate text locale (.ok none) (.ok (some v)) ai o1 o2 =
      { response := some { status := 200,
                           result := some ⟨text, v, "cache"⟩,
                           errorBody := none,
                           cacheStatus := some "HIT-D1" },
        effects := { trace := [Tier.edge, Tier.store],
                     d1Write := none,
                     edgeWrite := some (target_cache_key text locale,
                                        ⟨text, v, "cache"⟩) } } := by
  have h1 : ¬ (text = "" ∨ locale = "") := by
    intro h
    cases h <;> contradiction
  have h2 : ¬ (text.length > 64) := by omega
  simp [fetchTranslate, h1, h2]

/-- C7, witness: the pre-seeded "NTT"/"en" scenario. -/
theorem C7_witness :
    fetchTranslate "NTT" "en" (.ok none) (.ok (some "NTT")) .transportError
        (.ok ()) (.ok ()) =
      { response := some { status := 200,
                           result := some ⟨"NTT", "NTT", "cache"⟩,
                           errorBody := none,
                           cacheStatus := some "HIT-D1" },
        effects := { trace := [Tier.edge, Tier.store],
                     d1Write := none,
                     edgeWrite := some (target_cache_key "NTT" "en",
                                        ⟨"NTT", "NTT", "cache"⟩) } } :=
  C7_store_hit_returns_cache_and_backfills "NTT" "en" "NTT" .transportError
    (.ok ()) (.ok ()) (by decide) (by decide) (by decide)

/-- C8, counterexample.  The code trims the provider output before
truncating.  For the 65-character provider output made of a space
followed by 64 letters `a`, the handler returns the 64 letters `a`,
which is not the output's first 64 characters (those start with the
space): "stored and returned as exactly its first 64 characters" fails. -/
theorem C8_counterexample :
    (fetchTranslate "NTT" "en" (.ok none) (.ok none)
        (.success [String.mk (' ' :: List.replicate 64 'a')])
        (.ok ()) (.ok ())).response =
      some { status := 200,
             result := some ⟨"NTT", String.mk (List.replicate 64 'a'), "ai"⟩,
             errorBody := none, cacheStatus := some "MISS" } ∧
    (String.mk (' ' :: List.replicate 64 'a')).length = 65 ∧
    String.mk (List.replicate 64 'a') ≠
      jsSubstring0 (String.mk (' ' :: List.replicate 64 'a')) 64 := by
  exact ⟨by decide, by decide, by decide⟩

/-- C8, amended.  On a full miss with a successful provider call, the
response is 200 with `{ original := text, translated := the provider
output trimmed of surrounding whitespace and then truncated to at most
64 characters, source := "ai" }`, and the scheduled D1 insert and edge
put both carry that same text under the same derived key; a trimmed
output longer than 64 characters is stored and returned as exactly its
first 64 characters. -/
theorem C8_full_miss_success_truncates_trimmed_output
    (text locale c : String) (rest : List String) (o1 o2 : Except Unit Unit)
    (htext : text ≠ "") (hloc : locale ≠ "") (hlen : text.length ≤ 64) :
    fetchTranslate text locale (.ok none) (.ok none) (.success (c :: rest)) o1 o2 =
      { response := some { status := 200,
                           result := some ⟨text, jsSubstring0 (jsTrim c) 64, "ai"⟩,
                           errorBody := none,
                           cacheStatus := some "MISS" },
        effects := { trace := [Tier.edge, Tier.store, Tier.provider],
                     d1Write := some (target_cache_key text locale,
                                      jsSubstring0 (jsTrim c) 64),
                     edgeWrite := some (target_cache_key text locale,
                                        ⟨text, jsSubstring0 (jsTrim c) 64, "ai"⟩) } } ∧
    ((jsTrim c).length > 64 → (jsSubstring0 (jsTrim c) 64).length = 64) := by
  have h1 : ¬ (text = "" ∨ locale = "") := by
    intro h
    cases h <;> contradiction
  have h2 : ¬ (text.length > 64) := by omega
  constructor
  · simp [fetchTranslate, h1, h2]
  · intro h
    rw [jsSubstring0_length]
    omega

/-- C8, witness: the "China Telecom"/"zh" scenario, and a 70-character
provider output truncated to length exactly 64. -/
theorem C8_witness :
    fetchTranslate "China Telecom" "zh" (.ok none) (.ok none)
        (.success ["中国电信"]) (.ok ()) (.ok ()) =
      { response := some { status := 200,
                           result := some ⟨"China Telecom",
                                           jsSubstring0 (jsTrim "中国电信") 64, "ai"⟩,
                           errorBody := none,
                           cacheStatus := some "MISS" },
        effects := { trace := [Tier.edge, Tier.store, Tier.provider],
                     d1Write := some (target_cache_key "China Telecom" "zh",
                                      jsSubstring0 (jsTrim "中国电信") 64),
                     edgeWrite := some (target_cache_key "China Telecom" "zh",
                                        ⟨"China Telecom",
                                         jsSubstring0 (jsTrim "中国电信") 64, "ai"⟩) } } ∧
    (jsSubstring0 (jsTrim (String.mk (List.replicate 70 'b'))) 64).length = 64 := by
  refine ⟨?_, ?_⟩
  · exact (C8_full_miss_success_truncates_trimmed_output "China Telecom" "zh"
      "中国电信" [] (.ok ()) (.ok ()) (by decide) (by decide) (by decide)).1
  · exact (C8_full_miss_success_truncates_trimmed_output "NTT" "en"
      (String.mk (List.replicate 70 'b')) [] (.ok ()) (.ok ())
      (by decide) (by decide) (by decide)).2 (by decide)

/-- C9, counterexample.  The edge probe `cache.match` is awaited outside
any try/catch, so a probe error is not swallowed: the handler's promise
rejects and the request fails with no response built by the worker. -/
theorem C9_counterexample :
    (fetchTranslate "NTT" "en" (.error ()) (.ok none) (.success ["NTT"])
        (.ok ()) (.ok ())).response = none := by
  decide

/-- C9, amended.  An error of the edge cache store never reaches the
caller — the two detached write promises provably do not influence the
handler's result at all — but an error of the edge cache probe is not
caught: it propagates and fails the request. -/
theorem C9_store_error_detached_probe_error_propagates
    (text locale : String)
    (edgeProbe : Except Unit (Option TranslationResult))
    (d1Get : Except Unit (Option String)) (ai : AIOutcome)
    (o1 o2 o1' o2' : Except Unit Unit)
    (htext : text ≠ "") (hloc : locale ≠ "") (hlen : text.length ≤ 64) :
    fetchTranslate text locale edgeProbe d1Get ai o1 o2 =
      fetchTranslate text locale edgeProbe d1Get ai o1' o2' ∧
    (fetchTranslate text locale (.error ()) d1Get ai o1 o2).response = none := by
  have h1 : ¬ (text = "" ∨ locale = "") := by
    intro h
    cases h <;> contradiction
  have h2 : ¬ (text.length > 64) := by omega
  exact ⟨rfl, by simp [fetchTranslate, h1, h2]⟩

/-- C9, witness at concrete inputs. -/
theorem C9_witness :
    fetchTranslate "NTT" "en" (.ok none) (.ok none) (.success ["NTT"])
        (.error ()) (.error ()) =
      fetchTranslate "NTT" "en" (.ok none) (.ok none) (.success ["NTT"])
        (.ok ()) (.ok ()) ∧
    (fetchTranslate "NTT" "en" (.error ()) (.ok none) (.success ["NTT"])
        (.error ()) (.error ())).response = none :=
  C9_store_error_detached_probe_error_propagates "NTT" "en" (.ok none) (.ok none)
    (.success ["NTT"]) (.error ()) (.error ()) (.ok ()) (.ok ())
    (by decide) (by decide) (by decide)

/-- C10, confirmed.  A full miss whose provider response lacks a
non-empty `choices` array is answered 200 with translated
"Translation Error" and source "ai", and that literal string is
scheduled for write-back to both the D1 store and the edge cache under
the derived key; any later request for the same pair that finds the row
in D1 (edge miss) is served "Translation Error" with source "cache",
and one that finds the edge copy is served it with source "edge". -/
theorem C10_missing_choices_fallback_is_cached
    (text locale : String) (ai2 ai3 : AIOutcome)
    (d1Get3 : Except Unit (Option String))
    (o1 o2 o3 o4 o5 o6 : Except Unit Unit)
    (htext : text ≠ "") (hloc : locale ≠ "") (hlen : text.length ≤ 64) :
    fetchTranslate text locale (.ok none) (.ok none) (.success []) o1 o2 =
      { response := some { status := 200,
                           result := some ⟨text, "Translation Error", "ai"⟩,
                           errorBody := none,
                           cacheStatus := some "MISS" },
        effects := { trace := [Tier.edge, Tier.store, Tier.provider],
                     d1Write := some (target_cache_key text locale,
                                      "Translation Error"),
                     edgeWrite := some (target_cache_key text locale,
                                        ⟨text, "Translation Error", "ai"⟩) } } ∧
    (fetchTranslate text locale (.ok none) (.ok (some "Translation Error"))
        ai2 o3 o4).response =
      some { status := 200,
             result := some ⟨text, "Translation Error", "cache"⟩,
             errorBody := none, cacheStatus := some "HIT-D1" } ∧
    (fetchTranslate text locale (.ok (some ⟨text, "Translation Error", "ai"⟩))
        d1Get3 ai3 o5 o6).response =
      some { status := 200,
             result := some ⟨text, "Translation Error", "edge"⟩,
             errorBody := none, cacheStatus := some "HIT-EDGE" } := by
  have h1 : ¬ (text = "" ∨ locale = "") := by
    intro h
    cases h <;> contradiction
  have h2 : ¬ (text.length > 64) := by omega
  refine ⟨?_, ?_, ?_⟩ <;>
    simp [fetchTranslate, h1, h2, jsSubstring0_translationError]

/-- C10, witness at concrete inputs. -/
theorem C10_witness :
    fetchTranslate "NTT" "en" (.ok none) (.ok none) (.success [])
        (.ok ()) (.ok ()) =
      { response := some { status := 200,
                           result := some ⟨"NTT", "Translation Error", "ai"⟩,
                           errorBody := none,
                           cacheStatus := some "MISS" },
        effects := { trace := [Tier.edge, Tier.store, Tier.provider],
                     d1Write := some (target_cache_key "NTT" "en",
                                      "Translation Error"),
                     edgeWrite := some (target_cache_key "NTT" "en",
                                        ⟨"NTT", "Translation Error", "ai"⟩) } } ∧
    (fetchTranslate "NTT" "en" (.ok none) (.ok (some "Translation Error"))
        .transportError (.ok ()) (.ok ())).response =
      some { status := 200,
             result := some ⟨"NTT", "Translation Error", "cache"⟩,
             errorBody := none, cacheStatus := some "HIT-D1" } ∧
    (fetchTranslate "NTT" "en" (.ok (some ⟨"NTT", "Translation Error", "ai"⟩))
        (.ok none) .transportError (.ok ()) (.ok ())).response =
      some { status := 200,
             result := some ⟨"NTT", "Translation Error", "edge"⟩,
             errorBody := none, cacheStatus := some "HIT-EDGE" } :=
  C10_missing_choices_fallback_is_cached "NTT" "en" .transportError .transportError
    (.ok none) (.ok ()) (.ok ()) (.ok ()) (.ok ()) (.ok ()) (.ok ())
    (by decide) (by decide) (by decide)
